import Mathlib

/-!
Shallow embedding of the build-artifact resolution core of `cargo-nnd`
(`src/main.rs`): the debug-info classifier `Profile::has_enough_debug_info`,
the tag-driven cargo-message decoder `CargoMessage`, and the event loop of
`build_target` that folds a stream of parsed cargo JSON messages into either
a resolved executable path or a diagnosable failure.

Modelling conventions:
- A Rust `panic!` is modelled as `Option.none` / a dedicated abort outcome.
- `exit(1)` after an `eprintln!` (the `bail!` macro) is modelled as a
  terminal `bail` outcome carrying the structured error.
- `cargo(args, false).exec()` (the human-readable re-run on build failure)
  is modelled as the terminal `rerun` outcome.
- The stream fed to the loop is the list of per-line parse results,
  `List (Except String CargoMessage)`: `Except.error line` stands for a
  line that `serde_json::from_str` rejected (carrying the offending line).
-/

namespace CargoNnd

/-- The three encodings of cargo's `profile.debuginfo` field, mirroring the
untagged Rust enum `DebugInfo { N(usize), B(bool), S(String) }`. -/
inductive DebugInfo where
  | N : Nat → DebugInfo
  | B : Bool → DebugInfo
  | S : String → DebugInfo
deriving DecidableEq, Repr

/-- Mirrors the Rust `Display` impl for `DebugInfo`. -/
def DebugInfo.display : DebugInfo → String
  | .N v => toString v
  | .B v => cond v "true" "false"
  | .S v => v

/-- Mirrors `struct Profile { debuginfo: DebugInfo }`. -/
structure Profile where
  debuginfo : DebugInfo
deriving DecidableEq, Repr

/-- Mirrors `Profile::has_enough_debug_info`. The Rust function returns
`bool` and panics on unrecognized numeric or string values; the panic is
modelled as `none`. -/
def Profile.has_enough_debug_info (p : Profile) : Option Bool :=
  match p.debuginfo with
  | .N n =>
    match n with
    | 0 => some false
    | 1 => some true
    | 2 => some true
    | _ => none
  | .B b =>
    match b with
    | false => some false
    | true => some true
  | .S s =>
    if s = "none" ∨ s = "line-directives-only" ∨ s = "line-tables-only" then
      some false
    else if s = "limited" ∨ s = "full" then
      some true
    else
      none

/-- Mirrors the Rust enum `CargoMessage` (internally tagged on `reason`,
with `#[serde(other)] Unknown`). Executable paths are modelled as strings. -/
inductive CargoMessage where
  | CompilerArtifact (profile : Profile) (executable : Option String)
  | BuildFinished (success : Bool)
  | Unknown
deriving DecidableEq, Repr

/-- A JSON value, for modelling the serde decoding of one line of cargo
output. -/
inductive Json where
  | null
  | bool (b : Bool)
  | num (n : Nat)
  | str (s : String)
  | arr (elems : List Json)
  | obj (fields : List (String × Json))

/-- First binding of a key in a JSON object's field list. -/
def getField (fields : List (String × Json)) (key : String) : Option Json :=
  match fields with
  | [] => none
  | (k, v) :: rest => if k = key then some v else getField rest key

/-- Serde decoding of the untagged enum `DebugInfo`: variants are tried in
declaration order `N`, `B`, `S`. -/
def decodeDebugInfo : Json → Except String DebugInfo
  | .num n => .ok (.N n)
  | .bool b => .ok (.B b)
  | .str s => .ok (.S s)
  | _ => .error "data did not match any variant of untagged enum DebugInfo"

/-- Serde decoding of `struct Profile { debuginfo: DebugInfo }`. -/
def decodeProfile : Json → Except String Profile
  | .obj fields =>
    match getField fields "debuginfo" with
    | some j => (decodeDebugInfo j).map Profile.mk
    | none => .error "missing field `debuginfo`"
  | _ => .error "invalid type: expected struct Profile"

/-- Serde decoding of the `executable: Option<PathBuf>` field: a missing
field or JSON null decodes to `none`, a string to `some`. -/
def decodeExecutable : Option Json → Except String (Option String)
  | none => .ok none
  | some .null => .ok none
  | some (.str s) => .ok (some s)
  | some _ => .error "invalid type for field `executable`"

/-- Mirrors the serde-derived decoder of `CargoMessage`: internally tagged
on the `"reason"` field; the two recognized tags decode their payload
fields (failing hard when required fields are absent or mistyped); every
other string tag decodes to `Unknown` via `#[serde(other)]`. -/
def CargoMessage.fromJson : Json → Except String CargoMessage
  | .obj fields =>
    match getField fields "reason" with
    | some (.str r) =>
      if r = "compiler-artifact" then
        match getField fields "profile" with
        | some pj =>
          match decodeProfile pj with
          | .ok profile =>
            match decodeExecutable (getField fields "executable") with
            | .ok exe => .ok (.CompilerArtifact profile exe)
            | .error e => .error e
          | .error e => .error e
        | none => .error "missing field `profile`"
      else if r = "build-finished" then
        match getField fields "success" with
        | some (.bool b) => .ok (.BuildFinished b)
        | some _ => .error "invalid type for field `success`"
        | none => .error "missing field `success`"
      else
        .ok .Unknown
    | some _ => .error "invalid type for tag `reason`"
    | none => .error "missing field `reason`"
  | _ => .error "invalid type: expected a JSON object"

/-- The structured errors behind the `bail!` sites of `build_target`. -/
inductive BuildError where
  | insufficientDebugInfo (got : DebugInfo)
  | multipleExecutables
  | noArtifactMessage
  | parseFailure (line : String)
deriving DecidableEq, Repr

/-- The `eprintln!` text of each `bail!` site of `build_target`. -/
def BuildError.message : BuildError → String
  | .insufficientDebugInfo got =>
      "compiling without enough debug info (got " ++ got.display ++
        "); use at least `debug=1`"
  | .multipleExecutables => "build produced more than one executable"
  | .noArtifactMessage => "cargo did not output a compiler-artifact message"
  | .parseFailure line =>
      "failed to parse cargo output\noutput:\n" ++ line

/-- Terminal outcome of `build_target`'s event loop. -/
inductive BuildResult where
  | ok (target : String)
  | bail (e : BuildError)
  | rerun
  | invariantViolation (got : DebugInfo)
deriving DecidableEq, Repr

/-- One iteration of the loop body of `build_target` on a successfully
parsed message: either the loop keeps going with an updated `target`
accumulator (`Except.ok`), or it terminates with a `BuildResult`
(`Except.error`). Mirrors the `match serde_json::from_str(&line)` arms for
`Ok(..)` values. -/
def stepEvent (target : Option String) :
    CargoMessage → Except BuildResult (Option String)
  | .CompilerArtifact profile executable =>
    match executable with
    | some executable =>
      match profile.has_enough_debug_info with
      | none => .error (.invariantViolation profile.debuginfo)
      | some false =>
          .error (.bail (.insufficientDebugInfo profile.debuginfo))
      | some true =>
          if target.isSome then .error (.bail .multipleExecutables)
          else .ok (some executable)
    | none => .ok target
  | .BuildFinished success =>
      if success then .ok target else .error .rerun
  | .Unknown => .ok target

/-- The event loop of `build_target`: folds the stream of per-line parse
results over the `target: Option<PathBuf>` accumulator. At stream
exhaustion, `let Some(target) = target else bail!(..)` yields the resolved
path or the no-compiler-artifact bail. -/
def processLines :
    List (Except String CargoMessage) → Option String → BuildResult
  | [], target =>
    match target with
    | some t => .ok t
    | none => .bail .noArtifactMessage
  | item :: rest, target =>
    match item with
    | .error line => .bail (.parseFailure line)
    | .ok msg =>
      match stepEvent target msg with
      | .error result => result
      | .ok target2 => processLines rest target2

/-- `build_target` restricted to its core: the resolution of the event
stream, starting from `target = None`. -/
def build_target (stream : List (Except String CargoMessage)) : BuildResult :=
  processLines stream none

/-- Runs a prefix of the stream: `Except.ok t` when every line was parsed
and stepped without terminating, carrying the accumulator; `Except.error r`
when the loop terminated inside the prefix with result `r`. -/
def runPrefix :
    List (Except String CargoMessage) → Option String →
      Except BuildResult (Option String)
  | [], target => .ok target
  | item :: rest, target =>
    match item with
    | .error line => .error (.bail (.parseFailure line))
    | .ok msg =>
      match stepEvent target msg with
      | .error result => .error result
      | .ok target2 => runPrefix rest target2

/-- Whether a message is an `ArtifactProduced` event carrying a present
executable path. -/
def hasExecutable : CargoMessage → Bool
  | .CompilerArtifact _ (some _) => true
  | _ => false

/-- Whether a message is `BuildFinished { success: false }`. -/
def isBuildFailed : CargoMessage → Bool
  | .BuildFinished false => true
  | _ => false

/-! ### Infrastructure lemmas about the event loop -/

/-- Splitting the loop at a prefix that runs without terminating. -/
theorem processLines_append (xs ys : List (Except String CargoMessage))
    (t t' : Option String) (h : runPrefix xs t = .ok t') :
    processLines (xs ++ ys) t = processLines ys t' := by
  induction xs generalizing t with
  | nil =>
    simp [runPrefix] at h
    subst h
    rfl
  | cons item rest ih =>
    cases item with
    | error line => simp [runPrefix] at h
    | ok msg =>
      cases hs : stepEvent t msg with
      | error r => simp [runPrefix, hs] at h
      | ok t2 =>
        simp [runPrefix, hs] at h
        simpa [processLines, hs] using ih t2 h

/-- A prefix on which the loop terminates determines the whole result. -/
theorem processLines_append_error (xs ys : List (Except String CargoMessage))
    (t : Option String) (r : BuildResult) (h : runPrefix xs t = .error r) :
    processLines (xs ++ ys) t = r := by
  induction xs generalizing t with
  | nil => simp [runPrefix] at h
  | cons item rest ih =>
    cases item with
    | error line =>
      simp [runPrefix] at h
      simp [processLines, ← h]
    | ok msg =>
      cases hs : stepEvent t msg with
      | error r2 =>
        simp [runPrefix, hs] at h
        simp [processLines, hs, ← h]
      | ok t2 =>
        simp [runPrefix, hs] at h
        simpa [processLines, hs] using ih t2 h

/-- Events with no present executable and no failed finish leave the
accumulator untouched. -/
theorem stepEvent_noop (t : Option String) (m : CargoMessage)
    (h1 : hasExecutable m = false) (h2 : isBuildFailed m = false) :
    stepEvent t m = .ok t := by
  cases m with
  | CompilerArtifact profile executable =>
    cases executable with
    | none => rfl
    | some e => simp [hasExecutable] at h1
  | BuildFinished success =>
    cases success with
    | true => rfl
    | false => simp [isBuildFailed] at h2
  | Unknown => rfl

/-- A run of no-op events keeps the loop going with the same accumulator. -/
theorem runPrefix_noop (evs : List CargoMessage) (t : Option String)
    (h : ∀ m ∈ evs, hasExecutable m = false ∧ isBuildFailed m = false) :
    runPrefix (evs.map .ok) t = .ok t := by
  induction evs with
  | nil => rfl
  | cons m rest ih =>
    obtain ⟨h1, h2⟩ := h m (List.mem_cons_self m rest)
    have hrest := fun x hx => h x (List.mem_cons_of_mem m hx)
    simp [runPrefix, stepEvent_noop t m h1 h2, ih hrest]

/-- Exhausting a stream of no-op events resolves the accumulated target, or
bails when none was recorded. -/
theorem processLines_noop (evs : List CargoMessage) (t : Option String)
    (h : ∀ m ∈ evs, hasExecutable m = false ∧ isBuildFailed m = false) :
    processLines (evs.map .ok) t =
      match t with
      | some x => .ok x
      | none => .bail .noArtifactMessage := by
  have := processLines_append (evs.map .ok) [] t t (runPrefix_noop evs t h)
  simpa [processLines] using this

/-- Once the accumulator holds a path, every non-terminating step keeps it
unchanged: the recorded path is never overwritten. -/
theorem stepEvent_some_fixed (q : String) (m : CargoMessage)
    (t2 : Option String) (h : stepEvent (some q) m = .ok t2) :
    t2 = some q := by
  cases m with
  | CompilerArtifact profile executable =>
    cases executable with
    | none =>
      simp [stepEvent] at h
      exact h.symm
    | some e =>
      cases hd : profile.has_enough_debug_info with
      | none => simp [stepEvent, hd] at h
      | some b => cases b <;> simp [stepEvent, hd] at h
  | BuildFinished success =>
    cases success with
    | true =>
      simp [stepEvent] at h
      exact h.symm
    | false => simp [stepEvent] at h
  | Unknown =>
    simp [stepEvent] at h
    exact h.symm

/-- A terminating step never terminates with a resolved path: `ok` arises
only at stream exhaustion. -/
theorem stepEvent_error_not_ok (t : Option String) (m : CargoMessage)
    (r : BuildResult) (h : stepEvent t m = .error r) :
    ∀ path, r ≠ .ok path := by
  intro path
  cases m with
  | CompilerArtifact profile executable =>
    cases executable with
    | none => simp [stepEvent] at h
    | some e =>
      cases hd : profile.has_enough_debug_info with
      | none =>
        simp [stepEvent, hd] at h
        simp [← h]
      | some b =>
        cases b with
        | false =>
          simp [stepEvent, hd] at h
          simp [← h]
        | true =>
          cases t with
          | none => simp [stepEvent, hd] at h
          | some q =>
            simp [stepEvent, hd] at h
            simp [← h]
  | BuildFinished success =>
    cases success with
    | true => simp [stepEvent] at h
    | false =>
      simp [stepEvent] at h
      simp [← h]
  | Unknown => simp [stepEvent] at h

/-! ### Claim theorems -/

/-- C7: the debug-info classifier, on every recognized encoding, returns
exactly: numeric 0 insufficient, 1 and 2 sufficient; boolean false
insufficient, true sufficient; strings "none", "line-directives-only",
"line-tables-only" insufficient, "limited" and "full" sufficient; and it
returns (`some`, no panic) on all of these recognized values. -/
theorem classifier_recognized_values :
    Profile.has_enough_debug_info ⟨.N 0⟩ = some false ∧
    Profile.has_enough_debug_info ⟨.N 1⟩ = some true ∧
    Profile.has_enough_debug_info ⟨.N 2⟩ = some true ∧
    Profile.has_enough_debug_info ⟨.B false⟩ = some false ∧
    Profile.has_enough_debug_info ⟨.B true⟩ = some true ∧
    Profile.has_enough_debug_info ⟨.S "none"⟩ = some false ∧
    Profile.has_enough_debug_info ⟨.S "line-directives-only"⟩ = some false ∧
    Profile.has_enough_debug_info ⟨.S "line-tables-only"⟩ = some false ∧
    Profile.has_enough_debug_info ⟨.S "limited"⟩ = some true ∧
    Profile.has_enough_debug_info ⟨.S "full"⟩ = some true := by
  decide

/-- C8: on every numeric debug-info value other than 0, 1, 2, and on every
string value outside the five named levels, the classifier aborts the whole
process (the Rust `panic!`, modelled as `none`) rather than returning a
boolean. -/
theorem classifier_unrecognized_aborts :
    (∀ n : Nat, n ≠ 0 → n ≠ 1 → n ≠ 2 →
      Profile.has_enough_debug_info ⟨.N n⟩ = none) ∧
    (∀ s : String, s ≠ "none" → s ≠ "line-directives-only" →
      s ≠ "line-tables-only" → s ≠ "limited" → s ≠ "full" →
      Profile.has_enough_debug_info ⟨.S s⟩ = none) := by
  constructor
  · intro n h0 h1 h2
    match n with
    | 0 => exact absurd rfl h0
    | 1 => exact absurd rfl h1
    | 2 => exact absurd rfl h2
    | n + 3 => rfl
  · intro s hn hd hl hlim hf
    simp [Profile.has_enough_debug_info, hn, hd, hl, hlim, hf]

/-- Witness for C8 at the concrete unrecognized inputs `3` and `"bogus"`. -/
theorem classifier_unrecognized_aborts_witness :
    Profile.has_enough_debug_info ⟨.N 3⟩ = none ∧
    Profile.has_enough_debug_info ⟨.S "bogus"⟩ = none :=
  ⟨classifier_unrecognized_aborts.1 3 (by decide) (by decide) (by decide),
   classifier_unrecognized_aborts.2 "bogus" (by decide) (by decide)
     (by decide) (by decide) (by decide)⟩

/-- C9: a well-formed JSON object line whose `"reason"` discriminator is a
string other than the two known event kinds decodes successfully to
`Unknown`, never to an error. -/
theorem unknown_tag_decodes_to_unknown
    (fields : List (String × Json)) (r : String)
    (hr : getField fields "reason" = some (.str r))
    (h1 : r ≠ "compiler-artifact") (h2 : r ≠ "build-finished") :
    CargoMessage.fromJson (.obj fields) = .ok .Unknown := by
  simp [CargoMessage.fromJson, hr, h1, h2]

/-- Witness for C9 at the concrete unknown tag `"compiler-message"`. -/
theorem unknown_tag_decodes_to_unknown_witness :
    CargoMessage.fromJson
      (.obj [("reason", .str "compiler-message")]) = .ok .Unknown :=
  unknown_tag_decodes_to_unknown [("reason", .str "compiler-message")]
    "compiler-message" rfl (by decide) (by decide)

/-- C1: a stream of parsed events whose only present-executable artifact has
sufficient debug info, contains no failed finish, and is followed by a
successful finish resolves to that executable's path; and a stream of
parsed events with no present executable anywhere and no failed finish,
reaching a successful finish, fails with the no-compiler-artifact error. -/
theorem unique_executable_resolution :
    (∀ (pre post : List CargoMessage) (p : Profile) (path : String),
      (∀ m ∈ pre, hasExecutable m = false ∧ isBuildFailed m = false) →
      (∀ m ∈ post, hasExecutable m = false ∧ isBuildFailed m = false) →
      p.has_enough_debug_info = some true →
      CargoMessage.BuildFinished true ∈ post →
      build_target
        ((pre ++ .CompilerArtifact p (some path) :: post).map .ok)
        = .ok path) ∧
    (∀ evs : List CargoMessage,
      (∀ m ∈ evs, hasExecutable m = false ∧ isBuildFailed m = false) →
      CargoMessage.BuildFinished true ∈ evs →
      build_target (evs.map .ok) = .bail .noArtifactMessage) := by
  constructor
  · intro pre post p path hpre hpost hd _hfin
    rw [build_target, List.map_append, List.map_cons,
      processLines_append (pre.map Except.ok) _ none none
        (runPrefix_noop pre none hpre)]
    have hstep :
        stepEvent none (CargoMessage.CompilerArtifact p (some path))
          = .ok (some path) := by
      simp [stepEvent, hd]
    simp only [processLines, hstep]
    simpa using processLines_noop post (some path) hpost
  · intro evs h _hfin
    simpa using processLines_noop evs none h

/-- Witness for C1: scenario A,
`[ArtifactProduced(debug=1, exe="a.out"), BuildFinished(success=true)]`
resolves to `"a.out"`, and scenario E,
`[ArtifactProduced(debug=2, exe=null), BuildFinished(success=true)]`
fails with the no-compiler-artifact error. -/
theorem unique_executable_resolution_witness :
    build_target
      [.ok (.CompilerArtifact ⟨.N 1⟩ (some "a.out")),
       .ok (.BuildFinished true)] = .ok "a.out" ∧
    build_target
      [.ok (.CompilerArtifact ⟨.N 2⟩ none),
       .ok (.BuildFinished true)] = .bail .noArtifactMessage :=
  ⟨unique_executable_resolution.1 [] [.BuildFinished true] ⟨.N 1⟩ "a.out"
      (by decide) (by decide) (by decide) (by decide),
   unique_executable_resolution.2
      [.CompilerArtifact ⟨.N 2⟩ none, .BuildFinished true]
      (by decide) (by decide)⟩

/-- C2 counterexample: the stream `[ArtifactProduced(debug=0, exe=null)]`
contains an artifact whose debug-info setting is insufficient, yet
resolution does not fail with the insufficient-debug-info error — the
debug-info check is skipped when no executable is present, and the run
fails with the no-compiler-artifact error instead. -/
theorem insufficient_without_executable_skipped :
    build_target [.ok (.CompilerArtifact ⟨.N 0⟩ none)]
      = .bail .noArtifactMessage := by
  decide

/-- C2 (amended): on the first `ArtifactProduced` event carrying a present
executable whose debug-info setting is insufficient, reached without
earlier termination, resolution fails immediately with the
insufficient-debug-info error — independent of any later events — and the
error's message names the minimum acceptable setting `debug=1`. -/
theorem insufficient_debug_info_fails_immediately
    (pre post : List (Except String CargoMessage)) (t : Option String)
    (p : Profile) (path : String)
    (hpre : runPrefix pre none = .ok t)
    (hd : p.has_enough_debug_info = some false) :
    build_target (pre ++ .ok (.CompilerArtifact p (some path)) :: post)
      = .bail (.insufficientDebugInfo p.debuginfo) ∧
    (BuildError.insufficientDebugInfo p.debuginfo).message
      = "compiling without enough debug info (got " ++
          p.debuginfo.display ++ "); use at least `debug=1`" := by
  refine ⟨?_, rfl⟩
  rw [build_target, processLines_append pre _ none t hpre]
  simp [processLines, stepEvent, hd]

/-- Witness for C2 (amended): scenario C,
`[ArtifactProduced(debug=0, exe="a.out")]` followed by a later event fails
with the insufficient-debug-info error naming `debug=1`. -/
theorem insufficient_debug_info_fails_immediately_witness :
    build_target
      [.ok (.CompilerArtifact ⟨.N 0⟩ (some "a.out")),
       .ok (.BuildFinished true)]
      = .bail (.insufficientDebugInfo (.N 0)) ∧
    (BuildError.insufficientDebugInfo (.N 0)).message
      = "compiling without enough debug info (got " ++
          (DebugInfo.N 0).display ++ "); use at least `debug=1`" :=
  insufficient_debug_info_fails_immediately []
    [.ok (.BuildFinished true)] none ⟨.N 0⟩ "a.out" rfl (by decide)

/-- C3: once an executable path is recorded, a later `ArtifactProduced`
event with a distinct present executable path and sufficient debug info
makes resolution fail with the multiple-executables error, whatever follows
it; and the recorded path is never silently overwritten: every
non-terminating continuation of the loop keeps the accumulator equal to
the first recorded path. -/
theorem at_most_one_executable :
    (∀ (pre post : List (Except String CargoMessage)) (q : String)
        (p : Profile) (path : String),
      runPrefix pre none = .ok (some q) →
      p.has_enough_debug_info = some true →
      path ≠ q →
      build_target (pre ++ .ok (.CompilerArtifact p (some path)) :: post)
        = .bail .multipleExecutables) ∧
    (∀ (xs : List (Except String CargoMessage)) (q : String)
        (t : Option String),
      runPrefix xs (some q) = .ok t → t = some q) := by
  constructor
  · intro pre post q p path hpre hd _hne
    rw [build_target, processLines_append pre _ none (some q) hpre]
    simp [processLines, stepEvent, hd]
  · intro xs
    induction xs with
    | nil =>
      intro q t h
      simp [runPrefix] at h
      exact h.symm
    | cons item rest ih =>
      intro q t h
      cases item with
      | error line => simp [runPrefix] at h
      | ok msg =>
        cases hs : stepEvent (some q) msg with
        | error r => simp [runPrefix, hs] at h
        | ok t2 =>
          simp [runPrefix, hs] at h
          rw [stepEvent_some_fixed q msg t2 hs] at h
          exact ih q t h

/-- Witness for C3: scenario B,
`[ArtifactProduced(debug=1, exe="a.out"), ArtifactProduced(debug=1,
exe="b.out"), BuildFinished(success=true)]` fails with the
multiple-executables error; and a successful-finish step after recording
`"a.out"` leaves the accumulator at `"a.out"`. -/
theorem at_most_one_executable_witness :
    build_target
      [.ok (.CompilerArtifact ⟨.N 1⟩ (some "a.out")),
       .ok (.CompilerArtifact ⟨.N 1⟩ (some "b.out")),
       .ok (.BuildFinished true)] = .bail .multipleExecutables ∧
    (some "a.out" : Option String) = some "a.out" :=
  ⟨at_most_one_executable.1
      [.ok (.CompilerArtifact ⟨.N 1⟩ (some "a.out"))]
      [.ok (.BuildFinished true)] "a.out" ⟨.N 1⟩ "b.out"
      rfl (by decide) (by decide),
   at_most_one_executable.2 [.ok (.BuildFinished true)] "a.out"
      (some "a.out") rfl⟩

/-- C4 counterexample: the stream `[ArtifactProduced(debug=1,
exe="a.out")]` is exhausted with no `BuildFinished` event ever seen, yet
resolution succeeds with `"a.out"` instead of failing with the
malformed-stream error. -/
theorem exhaustion_with_target_succeeds :
    build_target [.ok (.CompilerArtifact ⟨.N 1⟩ (some "a.out"))]
      = .ok "a.out" := by
  decide

/-- C4 (amended): when a stream — in particular one containing no
`BuildFinished` event — is exhausted without the loop terminating,
resolution fails with the no-compiler-artifact error exactly when no
executable was recorded; when one was recorded, it succeeds with that path
even though no finish event was seen. -/
theorem exhaustion_outcome (s : List (Except String CargoMessage))
    (t : Option String)
    (_hnofin : ∀ b : Bool, .ok (.BuildFinished b) ∉ s)
    (h : runPrefix s none = .ok t) :
    (t = none → build_target s = .bail .noArtifactMessage) ∧
    (∀ x, t = some x → build_target s = .ok x) := by
  have hall := processLines_append s [] none t h
  rw [List.append_nil] at hall
  constructor
  · intro ht
    subst ht
    simpa [processLines] using hall
  · intro x ht
    subst ht
    simpa [processLines] using hall

/-- Witness for C4 (amended): a stream holding one sufficient artifact and
nothing else resolves to its path at exhaustion. -/
theorem exhaustion_outcome_witness :
    build_target [.ok (.CompilerArtifact ⟨.N 1⟩ (some "b.out"))]
      = .ok "b.out" :=
  (exhaustion_outcome [.ok (.CompilerArtifact ⟨.N 1⟩ (some "b.out"))]
      (some "b.out") (by simp) rfl).2 "b.out" rfl

/-- C5 counterexample: an event occurring after `BuildFinished
{success:true}` changes the resolution outcome — the empty continuation
yields the no-compiler-artifact bail, while a later artifact event makes
the very same prefix resolve to `"a.out"`. -/
theorem event_after_success_changes_outcome :
    build_target [.ok (.BuildFinished true)] = .bail .noArtifactMessage ∧
    build_target [.ok (.BuildFinished true),
        .ok (.CompilerArtifact ⟨.N 1⟩ (some "a.out"))]
      = .ok "a.out" := by
  decide

/-- C5 (amended): `BuildFinished {success:true}` is a no-op for the event
loop: the state is unchanged and stream consumption continues with the
remaining events, which can still change the resolution outcome. -/
theorem buildFinished_true_is_noop (rest : List (Except String CargoMessage))
    (t : Option String) :
    processLines (.ok (.BuildFinished true) :: rest) t
      = processLines rest t := by
  simp [processLines, stepEvent]

/-- C6: a stream containing `BuildFinished {success:false}` never resolves
to an executable path, even when an artifact was recorded earlier; and when
the failed-finish event is reached without earlier termination, resolution
takes the human-readable re-run path. -/
theorem build_failed_never_resolves :
    (∀ s : List (Except String CargoMessage),
      .ok (.BuildFinished false) ∈ s →
      ∀ path, build_target s ≠ .ok path) ∧
    (∀ (pre post : List (Except String CargoMessage)) (t : Option String),
      runPrefix pre none = .ok t →
      build_target (pre ++ .ok (.BuildFinished false) :: post)
        = .rerun) := by
  constructor
  · have key : ∀ (s : List (Except String CargoMessage)) (t : Option String),
        .ok (.BuildFinished false) ∈ s →
        ∀ path, processLines s t ≠ .ok path := by
      intro s
      induction s with
      | nil =>
        intro t hmem
        simp at hmem
      | cons item rest ih =>
        intro t hmem path
        rcases List.mem_cons.mp hmem with hitem | hrest
        · subst hitem
          simp [processLines, stepEvent]
        · cases item with
          | error line => simp [processLines]
          | ok msg =>
            cases hs : stepEvent t msg with
            | error r =>
              simp only [processLines, hs]
              exact stepEvent_error_not_ok t msg r hs path
            | ok t2 =>
              simp only [processLines, hs]
              exact ih t2 hrest path
    intro s hmem path
    exact key s none hmem path
  · intro pre post t hpre
    rw [build_target, processLines_append pre _ none t hpre]
    simp [processLines, stepEvent]

/-- Witness for C6: scenario D, the stream `[BuildFinished(success=false)]`
does not resolve to a path and takes the re-run path. -/
theorem build_failed_never_resolves_witness :
    build_target [.ok (.BuildFinished false)] ≠ .ok "a.out" ∧
    build_target [.ok (.BuildFinished false)] = .rerun :=
  ⟨build_failed_never_resolves.1 [.ok (.BuildFinished false)]
      (List.mem_singleton.mpr rfl) "a.out",
   build_failed_never_resolves.2 [] [] none rfl⟩

/-- C10: a second `ArtifactProduced` event with a present executable and
sufficient debug info triggers the multiple-executables error even when its
path is identical to the path already recorded — the loop only tests
whether some path was recorded, never comparing the paths. -/
theorem duplicate_identical_path_errors
    (pre post : List (Except String CargoMessage)) (q : String) (p : Profile)
    (hpre : runPrefix pre none = .ok (some q))
    (hd : p.has_enough_debug_info = some true) :
    build_target (pre ++ .ok (.CompilerArtifact p (some q)) :: post)
      = .bail .multipleExecutables := by
  rw [build_target, processLines_append pre _ none (some q) hpre]
  simp [processLines, stepEvent, hd]

/-- Witness for C10: two artifacts with the identical path `"a.out"` before
a successful finish still fail with the multiple-executables error. -/
theorem duplicate_identical_path_errors_witness :
    build_target
      [.ok (.CompilerArtifact ⟨.N 1⟩ (some "a.out")),
       .ok (.CompilerArtifact ⟨.N 1⟩ (some "a.out")),
       .ok (.BuildFinished true)] = .bail .multipleExecutables :=
  duplicate_identical_path_errors
    [.ok (.CompilerArtifact ⟨.N 1⟩ (some "a.out"))]
    [.ok (.BuildFinished true)] "a.out" ⟨.N 1⟩ rfl (by decide)

end CargoNnd
